import Mathlib

/-!
Verification development for the BKW hackathon backend (`src/api.py`).

The pipeline under study merges two building-engineering spreadsheets into a
room-indexed table (step 1) and aggregates per-room power-density estimates
into a portfolio report (step 2).  We shallowly embed the Python code:

* Python floats that may be NaN are modelled as `PFloat := Option ℚ`,
  with `none` standing for NaN; arithmetic propagates `none` and every
  ordered comparison involving `none` is `false`, as in IEEE semantics.
* `round(x, n)` is modelled as exact round-half-to-even on ℚ.
* A pandas DataFrame is modelled as a `MergedTable`: a list of column names
  plus a list of rows, each row carrying the `Raum-Nr.` cell and an
  association list of numeric cells.
* HTTP failure paths are modelled with `Except`, carrying the status code
  and detail string that `api.py` puts into the `HTTPException`.
-/

/-- Python float values as used by the pipeline: `none` models NaN
(a missing / null numeric cell), `some q` an ordinary float, idealised
as an exact rational. -/
abbrev PFloat := Option ℚ

/-- Addition on Python floats: NaN propagates. -/
def pAdd : PFloat → PFloat → PFloat
  | some a, some b => some (a + b)
  | _, _ => none

/-- Subtraction on Python floats: NaN propagates. -/
def pSub : PFloat → PFloat → PFloat
  | some a, some b => some (a - b)
  | _, _ => none

/-- Multiplication on Python floats: NaN propagates. -/
def pMul : PFloat → PFloat → PFloat
  | some a, some b => some (a * b)
  | _, _ => none

/-- Division on Python floats: NaN propagates.  Every division in
`api.py` is guarded by a strict-positivity test on the denominator, so the
zero-denominator case of `pDiv` is never reached under those guards. -/
def pDiv : PFloat → PFloat → PFloat
  | some a, some b => some (a / b)
  | _, _ => none

/-- The Python comparison `x > 0`: `False` for NaN, as in IEEE. -/
def pGt0 : PFloat → Bool
  | some a => decide (0 < a)
  | none => false

/-- Floor of a rational, computed on the normalised numerator and
denominator with flooring integer division (kernel-reducible, unlike the
`FloorRing` instance). -/
def ratFloor (q : ℚ) : ℤ :=
  Int.fdiv q.num (q.den : ℤ)

/-- `ratFloor` agrees with the mathematical floor. -/
theorem ratFloor_eq_floor (q : ℚ) : ratFloor q = ⌊q⌋ := by
  rw [Rat.floor_def, ratFloor, Int.fdiv_eq_ediv _ (by positivity)]

/-- Round-half-to-even to an integer, Python's `round` on a value that is
exactly representable; ties (fractional part exactly 1/2) go to the even
neighbour. -/
def roundHalfEven (q : ℚ) : ℤ :=
  let f := ratFloor q
  let r := q - (f : ℚ)
  if r < 1/2 then f
  else if 1/2 < r then f + 1
  else if f % 2 = 0 then f else f + 1

/-- Python's `round(q, n)`: round to `n` decimal places, half to even. -/
def roundTo (n : ℕ) (q : ℚ) : ℚ :=
  (roundHalfEven (q * 10 ^ n) : ℚ) / 10 ^ n

/-- `round(x, n)` on a Python float: NaN rounds to NaN. -/
def pRound (n : ℕ) : PFloat → PFloat
  | some a => some (roundTo n a)
  | none => none

/-- One row of the merged DataFrame: the value of the `Raum-Nr.` column
(`none` when that cell is NaN) and the numeric cells, keyed by column
name. -/
structure Row where
  roomNr : Option String
  cells : List (String × PFloat)
deriving DecidableEq

/-- Reading a numeric cell of a row; a column that is absent from the row
reads as NaN. -/
def Row.get (r : Row) (c : String) : PFloat :=
  (r.cells.lookup c).getD none

/-- The merged DataFrame produced by step 1: column names plus rows. -/
structure MergedTable where
  cols : List String
  rows : List Row
deriving DecidableEq

/-- `api.py` (`calculate_room_metrics` lines 252-257 and `analyze_step2`
lines 570-574): the area column is the first of `'Fläche'`,
`'Fläche_heating'`, `'Flaeche'` present among the DataFrame's columns. -/
def areaColCandidates : List String := ["Fläche", "Fläche_heating", "Flaeche"]

/-- First area-column candidate present in `cols`, `none` if no candidate
is present. -/
def findAreaCol (cols : List String) : Option String :=
  areaColCandidates.find? (fun c => cols.contains c)

/-- The room-type taxonomy hard-coded in `analyze_step2` (`api.py` lines
493-515): codes 1..21 with German labels. -/
def typesMap : List (ℕ × String) :=
  [(1, "Flex-/ Co-Work/"), (2, "Einzel-/Zweierbüros"), (3, "Technikum"),
   (4, "Smart Farming"), (5, "Robotik"), (6, "Verkehrsflächen, Flure"),
   (7, "Teeküchen"), (8, "WCs"), (9, "ELT-Zentrale"),
   (10, "Putzmittel/ Lager"), (11, "Lager innenliegend"), (12, "TGA-Zentrale"),
   (13, "Etagenverteiler"), (14, "ELT-Schacht"), (15, "Batterieräume"),
   (16, "Drucker-/Kopierräume"), (17, "Treppenhäuser/Magistrale"),
   (18, "Schächte"), (19, "Aufzüge"), (20, "Seminarraum"), (21, "Diele")]

/-- `types.get(room_type, f"Type .. ")` in `analyze_step2` line 592: the
label of a room-type code, with a generic label for unknown codes. -/
def roomTypeName (t : ℕ) : String :=
  (typesMap.lookup t).getD ("Type " ++ toString t)

/-- One entry of the power estimator's result dictionary, as consumed by
`analyze_step2` (lines 584-591): heating and cooling power densities in
W/m² and the room-type code (`estimates.get('room_type', 0)`). -/
structure Estimate where
  heating_W_per_m2 : ℚ
  cooling_W_per_m2 : ℚ
  room_type : ℕ
deriving DecidableEq

/-! ## Step-1 metrics: `calculate_room_metrics` (`api.py` lines 239-283) -/

/-- Summation as pandas `Series.sum()`: NaN entries are skipped, the empty
sum is 0. -/
def nanSum (xs : List PFloat) : ℚ :=
  xs.foldl (fun acc x => acc + x.getD 0) 0

/-- Count of non-NaN entries, as used by pandas `mean`/`nunique`. -/
def nanCount (xs : List PFloat) : ℕ :=
  (xs.filter (fun x => x.isSome)).length

/-- Mean as pandas `Series.mean()`: NaN entries are skipped; the mean of an
empty or all-NaN column is NaN. -/
def nanMean (xs : List PFloat) : PFloat :=
  if nanCount xs = 0 then none else some (nanSum xs / (nanCount xs : ℚ))

/-- Number of distinct non-NaN values, pandas `Series.nunique()`. -/
def nanNunique (xs : List PFloat) : ℕ :=
  (xs.filterMap id).dedup.length

/-- Result record of `calculate_room_metrics`. -/
structure Metrics where
  total_rooms : ℕ
  total_area : PFloat
  avg_area : PFloat
  unique_roomtypes : ℕ
deriving DecidableEq

/-- The candidate room-type columns scanned by `calculate_room_metrics`
(lines 267-271). -/
def roomtypeColCandidates : List String :=
  ["Nummer Raumtyp", "Raumtyp", "Bezeichnung Raumtyp"]

/-- Rows kept by `calculate_room_metrics` lines 245-250: rows with a
non-null `Raum-Nr.` when that column exists, otherwise all rows. -/
def validRooms (df : MergedTable) : List Row :=
  if df.cols.contains "Raum-Nr." then
    df.rows.filter (fun r => r.roomNr.isSome)
  else df.rows

/-- Embedding of `calculate_room_metrics` (`api.py` lines 239-283). -/
def calculate_room_metrics (df : MergedTable) : Metrics :=
  let valid := validRooms df
  let total_rooms := valid.length
  let areaPair : PFloat × PFloat :=
    match findAreaCol df.cols with
    | some c => (some (nanSum (valid.map (fun r => r.get c))),
                 nanMean (valid.map (fun r => r.get c)))
    | none => (some 0, some 0)
  let unique_roomtypes :=
    match roomtypeColCandidates.find? (fun c => df.cols.contains c) with
    | some c => nanNunique (valid.map (fun r => r.get c))
    | none => 0
  { total_rooms := total_rooms
    total_area := areaPair.1
    avg_area := areaPair.2
    unique_roomtypes := unique_roomtypes }

/-! ## Step 1: `analyze_step1` (`api.py` lines 294-461) -/

/-- The accepted upload extensions (`api.py` line 320). -/
def allowed_extensions : List String := [".xls", ".xlsx", ".xlsm"]

/-- `validate_filename` (`api.py` lines 322-323):
`filename.lower().endswith(ext)` for some allowed extension, embedded on
the character sequence of the filename. -/
def validate_filename (filename : String) : Bool :=
  allowed_extensions.any
    (fun ext => List.isSuffixOf ext.data (filename.data.map Char.toLower))

/-- The step-1 core metrics (`Step1Data`, `api.py` lines 66-72). -/
structure Step1Data where
  optimizedRooms : ℕ
  totalRooms : ℕ
  improvementRate : ℚ
  confidence : ℚ
deriving DecidableEq

/-- The step-1 detail metrics used by the claims (`Step1Details`,
`api.py` lines 57-63, key-change constants omitted as irrelevant
constants). -/
structure Step1Details where
  originalRoomTypesCount : ℕ
  optimizedRoomTypesCount : ℕ
  avgRoomSizeM2 : PFloat
  totalAreaM2 : PFloat
deriving DecidableEq

/-- A successful step-1 outcome. -/
structure Step1Result where
  step1 : Step1Data
  details : Step1Details
deriving DecidableEq

/-- The in-memory `AnalysisStore` content relevant to the claims: saved
analyses keyed by id, each holding the merged table. -/
abbrev Store := List (String × MergedTable)

/-- Embedding of the `analyze_step1` endpoint (`api.py` lines 294-461),
from the point where the two upload filenames are known.  The merge result
is passed as a parameter (`merge_heating_ventilation_excel` lives outside
`api.py`); validation of the filenames happens before the upload contents
are consulted, mirroring lines 319-335.  `ValueError` raised for an empty
merge (lines 366-367) is caught at lines 422-432 and surfaced as an
HTTP 400 with a `Validation error:` detail.  On success the analysis is
saved in the store (line 404) and the response returned. -/
def analyze_step1 (store : Store) (heating_filename ventilation_filename : String)
    (analysis_id : String) (merged_df : MergedTable) :
    Store × Except (ℕ × String) Step1Result :=
  if ¬ validate_filename heating_filename then
    (store, Except.error (400, "Invalid heating file type. Allowed: .xls, .xlsx, .xlsm"))
  else if ¬ validate_filename ventilation_filename then
    (store, Except.error (400, "Invalid ventilation file type. Allowed: .xls, .xlsx, .xlsm"))
  else if merged_df.rows.isEmpty then
    (store, Except.error (400,
      "Validation error: Merged DataFrame is empty. Please check the input files."))
  else
    let metrics := calculate_room_metrics merged_df
    let step1_data : Step1Data :=
      { optimizedRooms := metrics.total_rooms * 9 / 10
        totalRooms := metrics.total_rooms
        improvementRate := 90
        confidence := 98 }
    let details : Step1Details :=
      { originalRoomTypesCount := metrics.unique_roomtypes
        optimizedRoomTypesCount := max (metrics.unique_roomtypes - 5) 1
        avgRoomSizeM2 := pRound 1 metrics.avg_area
        totalAreaM2 := pRound 0 metrics.total_area }
    (store ++ [(analysis_id, merged_df)], Except.ok ⟨step1_data, details⟩)

/-! ## Step 2: `analyze_step2` (`api.py` lines 464-665) -/

/-- Per-room-type accumulator (`room_type_stats` entries, `api.py` lines
594-603). -/
structure TypeStats where
  total_heating_w : PFloat
  total_area : PFloat
  count : ℕ
deriving DecidableEq

/-- The running totals of the aggregation loop (`api.py` lines 558-603). -/
structure AggState where
  total_heating_w : PFloat
  total_cooling_w : PFloat
  total_area : PFloat
  room_type_stats : List (String × TypeStats)
deriving DecidableEq

/-- Adds one room's heating power and area to its room-type group,
creating the group with zero counters first when absent (`api.py` lines
594-603); insertion order of groups is preserved as in a Python dict. -/
def updateStats (stats : List (String × TypeStats)) (name : String)
    (heating_w area : PFloat) : List (String × TypeStats) :=
  match stats with
  | [] => [(name, ⟨pAdd (some 0) heating_w, pAdd (some 0) area, 1⟩)]
  | (n, st) :: rest =>
    if n = name then
      (n, ⟨pAdd st.total_heating_w heating_w, pAdd st.total_area area, st.count + 1⟩) :: rest
    else (n, st) :: updateStats rest name heating_w area

/-- One iteration of the aggregation loop of `analyze_step2` (`api.py`
lines 563-603): look the room up in the merged table (rows whose
`Raum-Nr.` is NaN never match; a missing room is skipped via `continue`),
read its area from the first recognised area column — with the NaN of a
null cell propagating through `float()` — or default the area to 20.0 when
the table has no recognised area column at all, then accumulate. -/
def aggStep (df : MergedTable) (st : AggState) (entry : String × Estimate) : AggState :=
  match df.rows.find? (fun r => r.roomNr == some entry.1) with
  | none => st
  | some row =>
    let area : PFloat :=
      match findAreaCol df.cols with
      | some c => row.get c
      | none => some 20
    let heating_w := pMul (some entry.2.heating_W_per_m2) area
    let cooling_w := pMul (some entry.2.cooling_W_per_m2) area
    { total_heating_w := pAdd st.total_heating_w heating_w
      total_cooling_w := pAdd st.total_cooling_w cooling_w
      total_area := pAdd st.total_area area
      room_type_stats := updateStats st.room_type_stats (roomTypeName entry.2.room_type)
        heating_w area }

/-- The whole aggregation loop, starting from zero totals (`api.py` lines
558-603). -/
def aggTotals (power_estimates : List (String × Estimate)) (df : MergedTable) : AggState :=
  power_estimates.foldl (aggStep df) ⟨some 0, some 0, some 0, []⟩

/-- `avg_heating_w_per_m2` (`api.py` line 606), guarded on
`total_area > 0`. -/
def avg_heating_w_per_m2 (s : AggState) : PFloat :=
  if pGt0 s.total_area then pDiv s.total_heating_w s.total_area else some 0

/-- `total_heating_kw` (`api.py` line 607). -/
def total_heating_kw (s : AggState) : PFloat :=
  pDiv s.total_heating_w (some 1000)

/-- `annual_heating_kwh` (`api.py` line 610): heating kW times the fixed
2000 heating hours. -/
def annual_heating_kwh (s : AggState) : PFloat :=
  pMul (total_heating_kw s) (some 2000)

/-- `annual_cooling_kwh` (`api.py` line 611): cooling kW times the fixed
800 cooling hours. -/
def annual_cooling_kwh (s : AggState) : PFloat :=
  pMul (pDiv s.total_cooling_w (some 1000)) (some 800)

/-- `annual_total_kwh` (`api.py` line 612). -/
def annual_total_kwh (s : AggState) : PFloat :=
  pAdd (annual_heating_kwh s) (annual_cooling_kwh s)

/-- `baseline_kwh` (`api.py` line 615): the annual total inflated by the
hard-coded factor 1.22 = 61/50. -/
def baseline_kwh (s : AggState) : PFloat :=
  pMul (annual_total_kwh s) (some (61/50))

/-- `savings_kwh` (`api.py` line 616). -/
def savings_kwh (s : AggState) : PFloat :=
  pSub (baseline_kwh s) (annual_total_kwh s)

/-- `reduction_percentage` (`api.py` line 617), guarded on
`baseline_kwh > 0`. -/
def reduction_percentage (s : AggState) : PFloat :=
  if pGt0 (baseline_kwh s) then pMul (pDiv (savings_kwh s) (baseline_kwh s)) (some 100)
  else some 0

/-- `annual_savings_eur` (`api.py` line 618): savings times the
caller-supplied price per kWh. -/
def annual_savings_eur (s : AggState) (price_per_kwh : ℚ) : PFloat :=
  pMul (savings_kwh s) (some price_per_kwh)

/-- Per-group `avg_w_per_m2` (`api.py` line 623), guarded on the group's
`total_area > 0`. -/
def group_avg_w_per_m2 (st : TypeStats) : PFloat :=
  if pGt0 st.total_area then pDiv st.total_heating_w st.total_area else some 0

/-- Per-group `share_percent` (`api.py` line 624), guarded on the global
`total_area > 0`. -/
def group_share_percent (s : AggState) (st : TypeStats) : PFloat :=
  if pGt0 s.total_area then pMul (pDiv st.total_area s.total_area) (some 100) else some 0

/-- An entry of `breakdownByRoomType` (`RoomTypeBreakdown`, `api.py`
lines 89-93). -/
structure RoomTypeBreakdown where
  roomType : String
  wPerM2 : PFloat
  sharePercent : PFloat
deriving DecidableEq

/-- The breakdown list built at `api.py` lines 621-630. -/
def mkBreakdown (s : AggState) : List RoomTypeBreakdown :=
  s.room_type_stats.map (fun p =>
    ⟨p.1, pRound 1 (group_avg_w_per_m2 p.2), pRound 1 (group_share_percent s p.2)⟩)

/-- `Step2Data` (`api.py` lines 104-108). -/
structure Step2Data where
  energyConsumption : PFloat
  reductionPercentage : PFloat
  annualSavings : PFloat
deriving DecidableEq

/-- `Step2Details` (`api.py` lines 96-101). -/
structure Step2Details where
  heatingPowerKw : PFloat
  annualConsumptionKwh : PFloat
  savingsKwh : PFloat
  breakdownByRoomType : List RoomTypeBreakdown
deriving DecidableEq

/-- `Step2Response` (`api.py` lines 111-114). -/
structure Step2Response where
  step2 : Step2Data
  details : Step2Details
deriving DecidableEq

/-- The report computed from non-empty power estimates (`api.py` lines
556-643), with the roundings applied at lines 628-642. -/
def computedStep2 (power_estimates : List (String × Estimate)) (df : MergedTable)
    (price_per_kwh : ℚ) : Step2Response :=
  let s := aggTotals power_estimates df
  { step2 :=
    { energyConsumption := pRound 1 (avg_heating_w_per_m2 s)
      reductionPercentage := pRound 1 (reduction_percentage s)
      annualSavings := pRound 0 (annual_savings_eur s price_per_kwh) }
    details :=
    { heatingPowerKw := pRound 1 (total_heating_kw s)
      annualConsumptionKwh := pRound 0 (annual_total_kwh s)
      savingsKwh := pRound 0 (savings_kwh s)
      breakdownByRoomType := mkBreakdown s } }

/-- The simulated fallback report returned when the power estimator yields
no results (`api.py` lines 538-555). -/
def fallbackStep2 : Step2Response :=
  { step2 :=
    { energyConsumption := some 45
      reductionPercentage := some 18
      annualSavings := some 7800 }
    details :=
    { heatingPowerKw := some 57
      annualConsumptionKwh := some 143820
      savingsKwh := some 25680
      breakdownByRoomType :=
        [⟨"Büros", some 42, some 40⟩, ⟨"Konferenzräume", some 55, some 25⟩] } }

/-- Embedding of the `analyze_step2` computation from the estimator's
output onwards (`api.py` lines 538-656).  An empty estimator result takes
the simulated-data fallback (lines 538-555) without touching the merged
table.  With a non-empty result, the first loop iteration evaluates
`merged_df['Raum-Nr.']` (line 565), which raises `KeyError` — caught at
line 658 and turned into an HTTP 500 — when that column is absent from the
stored table; otherwise the aggregation runs to completion and the report
is returned. -/
def analyze_step2 (power_estimates : List (String × Estimate)) (df : MergedTable)
    (price_per_kwh : ℚ) : Except (ℕ × String) Step2Response :=
  if power_estimates.isEmpty then Except.ok fallbackStep2
  else if df.cols.contains "Raum-Nr." then
    Except.ok (computedStep2 power_estimates df price_per_kwh)
  else Except.error (500, "Failed to calculate energy metrics: KeyError")

/-! ## Spec-modelled merge resolution -/

/-- Modelled from the spec: the RoomMerger primary-value resolution of
§4.4 ("expose a single resolved primary value per role using precedence:
non-null heating value wins, else non-null ventilation value, else
null").  The merging utility `merge_heating_ventilation_excel` is imported
by `api.py` from `src/power/merge_excel_files.py`, which is not part of
the sources here, so this precedence rule is taken from the spec's own
words. -/
def resolvePrimary (heatingVal ventilationVal : PFloat) : PFloat :=
  match heatingVal with
  | some v => some v
  | none => ventilationVal

/-! ## Arithmetic helper lemmas -/

@[simp]
theorem pAdd_some_some (a b : ℚ) : pAdd (some a) (some b) = some (a + b) := rfl

@[simp]
theorem pSub_some_some (a b : ℚ) : pSub (some a) (some b) = some (a - b) := rfl

@[simp]
theorem pMul_some_some (a b : ℚ) : pMul (some a) (some b) = some (a * b) := rfl

@[simp]
theorem pDiv_some_some (a b : ℚ) : pDiv (some a) (some b) = some (a / b) := rfl

@[simp]
theorem pAdd_none_right (x : PFloat) : pAdd x none = none := by cases x <;> rfl

@[simp]
theorem pAdd_none_left (x : PFloat) : pAdd none x = none := rfl

@[simp]
theorem pSub_none_left (x : PFloat) : pSub none x = none := rfl

@[simp]
theorem pMul_some_none (a : ℚ) : pMul (some a) none = none := rfl

@[simp]
theorem pMul_none_left (x : PFloat) : pMul none x = none := rfl

@[simp]
theorem pDiv_none_left (x : PFloat) : pDiv none x = none := rfl

@[simp]
theorem pGt0_none : pGt0 none = false := rfl

@[simp]
theorem pGt0_some (a : ℚ) : pGt0 (some a) = decide (0 < a) := rfl

@[simp]
theorem pRound_some (n : ℕ) (a : ℚ) : pRound n (some a) = some (roundTo n a) := rfl

@[simp]
theorem pRound_none (n : ℕ) : pRound n none = none := rfl

/-- `roundTo` fixes zero. -/
theorem roundTo_zero (n : ℕ) : roundTo n 0 = 0 := by
  norm_num [roundTo, roundHalfEven, ratFloor]

/-- Evaluation of `roundTo 1` at the reduction ratio 1100/61 that
`analyze_step2` produces: it rounds to exactly 18. -/
theorem roundTo_reduction_value : roundTo 1 (1100/61) = 18 := by
  have h : Int.fdiv 11000 61 = 180 := by decide
  norm_num [roundTo, roundHalfEven, ratFloor, h]

/-! ## Claim theorems -/

/-- Claim C1: whenever the merge of the two uploaded sheets produces an
empty result set, `analyze_step1` fails with the empty-merge `ValueError`
(the spec's `EmptyMergeError`) surfaced to the caller as an HTTP 400
validation failure, leaves the analysis store unchanged, and never
returns a successful (empty) result. -/
theorem claim_C1_empty_merge_rejected (store : Store)
    (heating_fn ventilation_fn analysis_id : String) (merged_df : MergedTable)
    (hfh : validate_filename heating_fn = true)
    (hfv : validate_filename ventilation_fn = true)
    (hempty : merged_df.rows = []) :
    analyze_step1 store heating_fn ventilation_fn analysis_id merged_df =
      (store, Except.error (400,
        "Validation error: Merged DataFrame is empty. Please check the input files.")) ∧
    ∀ r : Step1Result,
      (analyze_step1 store heating_fn ventilation_fn analysis_id merged_df).2 ≠
        Except.ok r := by
  refine ⟨?_, ?_⟩
  · simp [analyze_step1, hfh, hfv, hempty]
  · intro r
    simp [analyze_step1, hfh, hfv, hempty]

/-- Witness for C1: two validly named uploads whose merge is empty are
rejected with HTTP 400 and the store stays empty. -/
theorem claim_C1_empty_merge_rejected_witness :
    validate_filename "heizung.xlsx" = true ∧
    validate_filename "lueftung.xlsm" = true ∧
    (MergedTable.mk ["Raum-Nr."] []).rows = [] ∧
    analyze_step1 [] "heizung.xlsx" "lueftung.xlsm" "a-1" (MergedTable.mk ["Raum-Nr."] []) =
      ([], Except.error (400,
        "Validation error: Merged DataFrame is empty. Please check the input files.")) := by
  have hfh : validate_filename "heizung.xlsx" = true := by decide
  have hfv : validate_filename "lueftung.xlsm" = true := by decide
  exact ⟨hfh, hfv, rfl,
    (claim_C1_empty_merge_rejected [] "heizung.xlsx" "lueftung.xlsm" "a-1"
      (MergedTable.mk ["Raum-Nr."] []) hfh hfv rfl).1⟩

/-- Claim C9: a step-1 upload in which either filename fails the
extension check is rejected with HTTP 400; the outcome is independent of
the (unread) file contents and merge result, and the analysis store is
unchanged, so no analysis id is created. -/
theorem claim_C9_invalid_extension_rejected (store : Store)
    (heating_fn ventilation_fn analysis_id : String) (m₁ m₂ : MergedTable)
    (hbad : validate_filename heating_fn = false ∨
      validate_filename ventilation_fn = false) :
    analyze_step1 store heating_fn ventilation_fn analysis_id m₁ =
      analyze_step1 store heating_fn ventilation_fn analysis_id m₂ ∧
    (analyze_step1 store heating_fn ventilation_fn analysis_id m₁).1 = store ∧
    ∃ msg, (analyze_step1 store heating_fn ventilation_fn analysis_id m₁).2 =
      Except.error (400, msg) := by
  by_cases hfh : validate_filename heating_fn = true
  · have hfv : validate_filename ventilation_fn = false := by
      rcases hbad with h | h
      · rw [hfh] at h; exact absurd h (by simp)
      · exact h
    refine ⟨by simp [analyze_step1, hfh, hfv], by simp [analyze_step1, hfh, hfv],
      "Invalid ventilation file type. Allowed: .xls, .xlsx, .xlsm", ?_⟩
    simp [analyze_step1, hfh, hfv]
  · have hfh' : validate_filename heating_fn = false := by
      simpa using hfh
    refine ⟨by simp [analyze_step1, hfh'], by simp [analyze_step1, hfh'],
      "Invalid heating file type. Allowed: .xls, .xlsx, .xlsm", ?_⟩
    simp [analyze_step1, hfh']

/-- Witness for C9: a `.pdf` heating upload is rejected with HTTP 400 on
two different candidate merge results alike, with the store untouched. -/
theorem claim_C9_invalid_extension_rejected_witness :
    (validate_filename "plan.pdf" = false ∨ validate_filename "rlt.xlsx" = false) ∧
    analyze_step1 [] "plan.pdf" "rlt.xlsx" "a-2"
        (MergedTable.mk ["Raum-Nr."] [Row.mk (some "101") []]) =
      analyze_step1 [] "plan.pdf" "rlt.xlsx" "a-2" (MergedTable.mk [] []) ∧
    (analyze_step1 [] "plan.pdf" "rlt.xlsx" "a-2"
        (MergedTable.mk ["Raum-Nr."] [Row.mk (some "101") []])).1 = [] ∧
    ∃ msg, (analyze_step1 [] "plan.pdf" "rlt.xlsx" "a-2"
        (MergedTable.mk ["Raum-Nr."] [Row.mk (some "101") []])).2 =
      Except.error (400, msg) := by
  have hbad : validate_filename "plan.pdf" = false ∨
      validate_filename "rlt.xlsx" = false := Or.inl (by decide)
  exact ⟨hbad,
    claim_C9_invalid_extension_rejected [] "plan.pdf" "rlt.xlsx" "a-2"
      (MergedTable.mk ["Raum-Nr."] [Row.mk (some "101") []]) (MergedTable.mk [] []) hbad⟩

/-- Claim C3: the spec-modelled primary-value resolution prefers the
non-null heating value — for a room present in both sources with
differing areas the resolved primary Area is the heating value, never the
ventilation one, and the ventilation value is used exactly when the
heating value is null; moreover the in-source area-column selection of
`api.py` (lines 252-264, 570-574) picks the heating-suffixed area column
whenever it is present (the ventilation-suffixed column is not even a
candidate). -/
theorem claim_C3_heating_precedence (hv vv : ℚ) (hne : hv ≠ vv)
    (cols : List String)
    (h1 : "Fläche" ∉ cols)
    (h2 : "Fläche_heating" ∈ cols) :
    resolvePrimary (some hv) (some vv) = some hv ∧
    resolvePrimary (some hv) (some vv) ≠ some vv ∧
    (∀ v : PFloat, resolvePrimary none v = v) ∧
    findAreaCol cols = some "Fläche_heating" := by
  refine ⟨rfl, ?_, fun v => rfl, ?_⟩
  · simp [resolvePrimary, hne]
  · rw [findAreaCol, areaColCandidates,
      List.find?_cons_of_neg _ (by simpa using h1),
      List.find?_cons_of_pos _ (by simpa using h2)]

/-- Witness for C3: the spec's own example (heating area 20, ventilation
area 21) resolves to the heating value, and a merged header carrying both
suffixed area columns selects the heating one. -/
theorem claim_C3_heating_precedence_witness :
    ((20 : ℚ) ≠ 21 ∧
      "Fläche" ∉ (["Raum-Nr.", "Fläche_heating", "Fläche_ventilation"] : List String) ∧
      "Fläche_heating" ∈
        (["Raum-Nr.", "Fläche_heating", "Fläche_ventilation"] : List String)) ∧
    resolvePrimary (some 20) (some 21) = some 20 ∧
    resolvePrimary (some 20) (some 21) ≠ some 21 ∧
    (∀ v : PFloat, resolvePrimary none v = v) ∧
    findAreaCol ["Raum-Nr.", "Fläche_heating", "Fläche_ventilation"] =
      some "Fläche_heating" := by
  have hne : (20 : ℚ) ≠ 21 := by norm_num
  exact ⟨⟨hne, by decide, by decide⟩,
    claim_C3_heating_precedence 20 21 hne
      ["Raum-Nr.", "Fläche_heating", "Fläche_ventilation"] (by decide) (by decide)⟩

/-- Claim C7: the step-2 aggregation is a pure function of the power
estimates, the merged table and the price parameter — re-running it on
equal inputs yields identical totals, reduction percentage, savings and
per-room-type breakdown. -/
theorem claim_C7_aggregation_deterministic (es₁ es₂ : List (String × Estimate))
    (df₁ df₂ : MergedTable) (price₁ price₂ : ℚ)
    (hes : es₁ = es₂) (hdf : df₁ = df₂) (hp : price₁ = price₂) :
    analyze_step2 es₁ df₁ price₁ = analyze_step2 es₂ df₂ price₂ := by
  subst hes
  subst hdf
  subst hp
  rfl

/-- Claim C6: every division of the aggregation step — average W/m² over
the total area, reduction percentage over the baseline, per-group
area-weighted average and per-group area share — is guarded, returning 0
(and no exception) when its denominator is zero. -/
theorem claim_C6_zero_denominator_guards (es : List (String × Estimate))
    (df : MergedTable) :
    ((aggTotals es df).total_area = some 0 →
      avg_heating_w_per_m2 (aggTotals es df) = some 0) ∧
    (baseline_kwh (aggTotals es df) = some 0 →
      reduction_percentage (aggTotals es df) = some 0) ∧
    (∀ st : TypeStats, st.total_area = some 0 → group_avg_w_per_m2 st = some 0) ∧
    ((aggTotals es df).total_area = some 0 →
      ∀ st : TypeStats, group_share_percent (aggTotals es df) st = some 0) := by
  refine ⟨?_, ?_, ?_, ?_⟩
  · intro hA
    norm_num [avg_heating_w_per_m2, hA, pGt0]
  · intro hB
    norm_num [reduction_percentage, hB, pGt0]
  · intro st hst
    norm_num [group_avg_w_per_m2, hst, pGt0]
  · intro hA st
    norm_num [group_share_percent, hA, pGt0]

/-- Witness for C6: an estimate list over a single room of area 0 drives
every denominator to zero, and each guarded division yields 0. -/
theorem claim_C6_zero_denominator_guards_witness :
    (aggTotals [("101", Estimate.mk 40 10 2)]
        (MergedTable.mk ["Raum-Nr.", "Fläche"]
          [Row.mk (some "101") [("Fläche", some 0)]])).total_area = some 0 ∧
    baseline_kwh (aggTotals [("101", Estimate.mk 40 10 2)]
        (MergedTable.mk ["Raum-Nr.", "Fläche"]
          [Row.mk (some "101") [("Fläche", some 0)]])) = some 0 ∧
    avg_heating_w_per_m2 (aggTotals [("101", Estimate.mk 40 10 2)]
        (MergedTable.mk ["Raum-Nr.", "Fläche"]
          [Row.mk (some "101") [("Fläche", some 0)]])) = some 0 ∧
    reduction_percentage (aggTotals [("101", Estimate.mk 40 10 2)]
        (MergedTable.mk ["Raum-Nr.", "Fläche"]
          [Row.mk (some "101") [("Fläche", some 0)]])) = some 0 := by
  have hA : (aggTotals [("101", Estimate.mk 40 10 2)]
      (MergedTable.mk ["Raum-Nr.", "Fläche"]
        [Row.mk (some "101") [("Fläche", some 0)]])).total_area = some 0 := by
    norm_num [aggTotals, aggStep, List.foldl, List.find?, Row.get, List.lookup,
      findAreaCol, areaColCandidates, updateStats, roomTypeName, typesMap]
  have hH : (aggTotals [("101", Estimate.mk 40 10 2)]
      (MergedTable.mk ["Raum-Nr.", "Fläche"]
        [Row.mk (some "101") [("Fläche", some 0)]])).total_heating_w = some 0 := by
    norm_num [aggTotals, aggStep, List.foldl, List.find?, Row.get, List.lookup,
      findAreaCol, areaColCandidates, updateStats, roomTypeName, typesMap]
  have hC : (aggTotals [("101", Estimate.mk 40 10 2)]
      (MergedTable.mk ["Raum-Nr.", "Fläche"]
        [Row.mk (some "101") [("Fläche", some 0)]])).total_cooling_w = some 0 := by
    norm_num [aggTotals, aggStep, List.foldl, List.find?, Row.get, List.lookup,
      findAreaCol, areaColCandidates, updateStats, roomTypeName, typesMap]
  have hB : baseline_kwh (aggTotals [("101", Estimate.mk 40 10 2)]
      (MergedTable.mk ["Raum-Nr.", "Fläche"]
        [Row.mk (some "101") [("Fläche", some 0)]])) = some 0 := by
    norm_num [baseline_kwh, annual_total_kwh, annual_heating_kwh, annual_cooling_kwh,
      total_heating_kw, hH, hC]
  have hmain := claim_C6_zero_denominator_guards [("101", Estimate.mk 40 10 2)]
    (MergedTable.mk ["Raum-Nr.", "Fläche"] [Row.mk (some "101") [("Fläche", some 0)]])
  exact ⟨hA, hB, hmain.1 hA, hmain.2.1 hB⟩

/-- Claim C4: for any power-estimate sequence, the annualized consumption
computed by the aggregation equals 2000 heating hours times the total
heating kW plus 800 cooling hours times the total cooling kW, and the
reported `annualConsumptionKwh` is that value rounded to whole kWh. -/
theorem claim_C4_annualized_consumption (es : List (String × Estimate))
    (df : MergedTable) (price h c : ℚ)
    (hh : (aggTotals es df).total_heating_w = some h)
    (hc : (aggTotals es df).total_cooling_w = some c) :
    annual_total_kwh (aggTotals es df) = some (2000 * (h / 1000) + 800 * (c / 1000)) ∧
    (computedStep2 es df price).details.annualConsumptionKwh =
      pRound 0 (some (2000 * (h / 1000) + 800 * (c / 1000))) := by
  have h1 : annual_total_kwh (aggTotals es df) =
      some (2000 * (h / 1000) + 800 * (c / 1000)) := by
    rw [annual_total_kwh, annual_heating_kwh, annual_cooling_kwh, total_heating_kw, hh, hc]
    simp only [pDiv_some_some, pMul_some_some, pAdd_some_some, Option.some.injEq]
    ring
  refine ⟨h1, ?_⟩
  show pRound 0 (annual_total_kwh (aggTotals es df)) = _
  rw [h1]

/-- Witness for C4: a single room of area 10 with 40/10 W/m² densities
gives 400 W heating, 100 W cooling, hence 880 kWh per year. -/
theorem claim_C4_annualized_consumption_witness :
    (aggTotals [("101", Estimate.mk 40 10 2)]
        (MergedTable.mk ["Raum-Nr.", "Fläche"]
          [Row.mk (some "101") [("Fläche", some 10)]])).total_heating_w = some 400 ∧
    (aggTotals [("101", Estimate.mk 40 10 2)]
        (MergedTable.mk ["Raum-Nr.", "Fläche"]
          [Row.mk (some "101") [("Fläche", some 10)]])).total_cooling_w = some 100 ∧
    annual_total_kwh (aggTotals [("101", Estimate.mk 40 10 2)]
        (MergedTable.mk ["Raum-Nr.", "Fläche"]
          [Row.mk (some "101") [("Fläche", some 10)]])) =
      some (2000 * ((400 : ℚ) / 1000) + 800 * ((100 : ℚ) / 1000)) := by
  have hh : (aggTotals [("101", Estimate.mk 40 10 2)]
      (MergedTable.mk ["Raum-Nr.", "Fläche"]
        [Row.mk (some "101") [("Fläche", some 10)]])).total_heating_w = some 400 := by
    norm_num [aggTotals, aggStep, List.foldl, List.find?, Row.get, List.lookup,
      findAreaCol, areaColCandidates, updateStats, roomTypeName, typesMap]
  have hc : (aggTotals [("101", Estimate.mk 40 10 2)]
      (MergedTable.mk ["Raum-Nr.", "Fläche"]
        [Row.mk (some "101") [("Fläche", some 10)]])).total_cooling_w = some 100 := by
    norm_num [aggTotals, aggStep, List.foldl, List.find?, Row.get, List.lookup,
      findAreaCol, areaColCandidates, updateStats, roomTypeName, typesMap]
  exact ⟨hh, hc,
    (claim_C4_annualized_consumption [("101", Estimate.mk 40 10 2)]
      (MergedTable.mk ["Raum-Nr.", "Fläche"] [Row.mk (some "101") [("Fläche", some 10)]])
      (3/10) 400 100 hh hc).1⟩

/-- Claim C5: the aggregation derives the baseline by inflating the
annual total by the factor 1.22 = 61/50 (which exceeds 1), savings as
baseline minus actual, the reduction percentage as savings over baseline
(on a 0-100 scale), and the annual monetary savings as savings times the
caller-supplied price per kWh. -/
theorem claim_C5_baseline_derivation (es : List (String × Estimate))
    (df : MergedTable) (price t : ℚ)
    (ht : annual_total_kwh (aggTotals es df) = some t) :
    baseline_kwh (aggTotals es df) = some (t * (61/50)) ∧
    (1 : ℚ) < 61/50 ∧
    savings_kwh (aggTotals es df) = some (t * (61/50) - t) ∧
    (0 < t → reduction_percentage (aggTotals es df) =
      some ((t * (61/50) - t) / (t * (61/50)) * 100)) ∧
    annual_savings_eur (aggTotals es df) price = some ((t * (61/50) - t) * price) := by
  have hb : baseline_kwh (aggTotals es df) = some (t * (61/50)) := by
    rw [baseline_kwh, ht]
    simp
  have hs : savings_kwh (aggTotals es df) = some (t * (61/50) - t) := by
    rw [savings_kwh, hb, ht]
    simp
  refine ⟨hb, by norm_num, hs, ?_, ?_⟩
  · intro hpos
    have hgt : pGt0 (baseline_kwh (aggTotals es df)) = true := by
      rw [hb]
      simpa [pGt0] using mul_pos hpos (by norm_num : (0:ℚ) < 61/50)
    rw [reduction_percentage, hgt]
    simp [hs, hb]
  · rw [annual_savings_eur, hs]
    simp

/-- Witness for C5: with an annual total of 880 kWh and a price of 0.30,
baseline, savings, reduction ratio and monetary savings take the stated
values. -/
theorem claim_C5_baseline_derivation_witness :
    annual_total_kwh (aggTotals [("101", Estimate.mk 40 10 2)]
        (MergedTable.mk ["Raum-Nr.", "Fläche"]
          [Row.mk (some "101") [("Fläche", some 10)]])) = some 880 ∧
    (0 : ℚ) < 880 ∧
    baseline_kwh (aggTotals [("101", Estimate.mk 40 10 2)]
        (MergedTable.mk ["Raum-Nr.", "Fläche"]
          [Row.mk (some "101") [("Fläche", some 10)]])) = some (880 * (61/50)) ∧
    reduction_percentage (aggTotals [("101", Estimate.mk 40 10 2)]
        (MergedTable.mk ["Raum-Nr.", "Fläche"]
          [Row.mk (some "101") [("Fläche", some 10)]])) =
      some ((880 * (61/50) - 880) / (880 * (61/50)) * 100) ∧
    annual_savings_eur (aggTotals [("101", Estimate.mk 40 10 2)]
        (MergedTable.mk ["Raum-Nr.", "Fläche"]
          [Row.mk (some "101") [("Fläche", some 10)]])) (3/10) =
      some ((880 * (61/50) - 880) * (3/10)) := by
  have ht : annual_total_kwh (aggTotals [("101", Estimate.mk 40 10 2)]
      (MergedTable.mk ["Raum-Nr.", "Fläche"]
        [Row.mk (some "101") [("Fläche", some 10)]])) = some 880 := by
    norm_num [annual_total_kwh, annual_heating_kwh, annual_cooling_kwh, total_heating_kw,
      aggTotals, aggStep, List.foldl, List.find?, Row.get, List.lookup,
      findAreaCol, areaColCandidates, updateStats, roomTypeName, typesMap]
  have hmain := claim_C5_baseline_derivation [("101", Estimate.mk 40 10 2)]
    (MergedTable.mk ["Raum-Nr.", "Fläche"] [Row.mk (some "101") [("Fläche", some 10)]])
    (3/10) 880 ht
  exact ⟨ht, by norm_num, hmain.1, hmain.2.2.2.1 (by norm_num), hmain.2.2.2.2⟩

/-- Claim C10: because the baseline is always exactly 1.22 times the
computed total, the reported reduction percentage is the input-independent
constant `round(100 * 0.22/1.22, 1) = 18.0` whenever the annual total is
positive, and 0 when the annual total is zero. -/
theorem claim_C10_constant_reduction (es : List (String × Estimate))
    (df : MergedTable) (price t : ℚ)
    (ht : annual_total_kwh (aggTotals es df) = some t) :
    roundTo 1 (100 * ((11:ℚ)/50) / ((61:ℚ)/50)) = 18 ∧
    (0 < t → (computedStep2 es df price).step2.reductionPercentage = some 18) ∧
    (t = 0 → (computedStep2 es df price).step2.reductionPercentage = some 0) := by
  have hconst : (100 * ((11:ℚ)/50) / ((61:ℚ)/50)) = 1100/61 := by norm_num
  refine ⟨by rw [hconst]; exact roundTo_reduction_value, ?_, ?_⟩
  · intro hpos
    have hb : baseline_kwh (aggTotals es df) = some (t * (61/50)) := by
      rw [baseline_kwh, ht]
      simp
    have hs : savings_kwh (aggTotals es df) = some (t * (61/50) - t) := by
      rw [savings_kwh, hb, ht]
      simp
    have hgt : pGt0 (baseline_kwh (aggTotals es df)) = true := by
      rw [hb]
      simpa [pGt0] using mul_pos hpos (by norm_num : (0:ℚ) < 61/50)
    have hred : reduction_percentage (aggTotals es df) = some (1100/61) := by
      rw [reduction_percentage, hgt]
      simp only [if_true, hs, hb, pDiv_some_some, pMul_some_some, Option.some.injEq]
      have hne : t ≠ 0 := ne_of_gt hpos
      field_simp
      ring
    show pRound 1 (reduction_percentage (aggTotals es df)) = some 18
    rw [hred, pRound_some, roundTo_reduction_value]
  · intro h0
    have hb : baseline_kwh (aggTotals es df) = some 0 := by
      rw [baseline_kwh, ht, h0]
      simp
    have hred : reduction_percentage (aggTotals es df) = some 0 := by
      norm_num [reduction_percentage, hb, pGt0]
    show pRound 1 (reduction_percentage (aggTotals es df)) = some 0
    rw [hred, pRound_some, roundTo_zero]

/-- Witness for C10: the single-room run with annual total 880 kWh
reports exactly 18.0 percent reduction. -/
theorem claim_C10_constant_reduction_witness :
    annual_total_kwh (aggTotals [("101", Estimate.mk 40 10 2)]
        (MergedTable.mk ["Raum-Nr.", "Fläche"]
          [Row.mk (some "101") [("Fläche", some 10)]])) = some 880 ∧
    (0 : ℚ) < 880 ∧
    (computedStep2 [("101", Estimate.mk 40 10 2)]
        (MergedTable.mk ["Raum-Nr.", "Fläche"]
          [Row.mk (some "101") [("Fläche", some 10)]])
        (3/10)).step2.reductionPercentage = some 18 := by
  have ht : annual_total_kwh (aggTotals [("101", Estimate.mk 40 10 2)]
      (MergedTable.mk ["Raum-Nr.", "Fläche"]
        [Row.mk (some "101") [("Fläche", some 10)]])) = some 880 := by
    norm_num [annual_total_kwh, annual_heating_kwh, annual_cooling_kwh, total_heating_kw,
      aggTotals, aggStep, List.foldl, List.find?, Row.get, List.lookup,
      findAreaCol, areaColCandidates, updateStats, roomTypeName, typesMap]
  exact ⟨ht, by norm_num,
    (claim_C10_constant_reduction [("101", Estimate.mk 40 10 2)]
      (MergedTable.mk ["Raum-Nr.", "Fläche"] [Row.mk (some "101") [("Fläche", some 10)]])
      (3/10) 880 ht).2.1 (by norm_num)⟩

/-- Claim C8: once step 1 has stored a merged table (which, by the merge
contract, carries the room-number column), step 2 always produces a
portfolio report: an empty estimator result is recovered by the
documented simulated fallback rather than raised, and a non-empty result
is aggregated into a report. -/
theorem claim_C8_report_always_produced (es : List (String × Estimate))
    (df : MergedTable) (price : ℚ) (hcol : "Raum-Nr." ∈ df.cols) :
    analyze_step2 [] df price = Except.ok fallbackStep2 ∧
    ∃ r, analyze_step2 es df price = Except.ok r := by
  refine ⟨rfl, ?_⟩
  by_cases he : es.isEmpty = true
  · exact ⟨fallbackStep2, by simp [analyze_step2, he]⟩
  · refine ⟨computedStep2 es df price, ?_⟩
    have hc : df.cols.contains "Raum-Nr." = true := by simpa using hcol
    simp [analyze_step2, he, hc, hcol]

/-- Witness for C8: on a concrete stored table, the empty estimator
result yields the simulated fallback report and a non-empty one yields a
computed report. -/
theorem claim_C8_report_always_produced_witness :
    ("Raum-Nr." ∈ (MergedTable.mk ["Raum-Nr.", "Fläche"]
        [Row.mk (some "101") [("Fläche", some 10)]]).cols) ∧
    analyze_step2 [] (MergedTable.mk ["Raum-Nr.", "Fläche"]
        [Row.mk (some "101") [("Fläche", some 10)]]) (3/10) =
      Except.ok fallbackStep2 ∧
    ∃ r, analyze_step2 [("101", Estimate.mk 40 10 2)]
        (MergedTable.mk ["Raum-Nr.", "Fläche"]
          [Row.mk (some "101") [("Fläche", some 10)]]) (3/10) = Except.ok r := by
  have hcol : "Raum-Nr." ∈ (MergedTable.mk ["Raum-Nr.", "Fläche"]
      [Row.mk (some "101") [("Fläche", some 10)]]).cols := by decide
  exact ⟨hcol,
    claim_C8_report_always_produced [("101", Estimate.mk 40 10 2)]
      (MergedTable.mk ["Raum-Nr.", "Fläche"] [Row.mk (some "101") [("Fläche", some 10)]])
      (3/10) hcol⟩

/-- Witness for C7: two runs on one concrete estimate list and table give
the same response. -/
theorem claim_C7_aggregation_deterministic_witness :
    analyze_step2 [("101", Estimate.mk 40 10 2)]
        (MergedTable.mk ["Raum-Nr.", "Fläche"] [Row.mk (some "101") [("Fläche", some 10)]])
        (3/10) =
      analyze_step2 [("101", Estimate.mk 40 10 2)]
        (MergedTable.mk ["Raum-Nr.", "Fläche"] [Row.mk (some "101") [("Fläche", some 10)]])
        (3/10) :=
  claim_C7_aggregation_deterministic _ _ _ _ _ _ rfl rfl rfl

/-- Counterexample for claim C2: a merged table that does have a
recognised area column but a null (NaN) Area cell for room 101.  The
aggregation of `analyze_step2` does not substitute the default area 20.0
for this room — `float(room_data[area_col].iloc[0])` yields NaN — so the
room's heating contribution and with it the aggregate totals and the
reported annual consumption are NaN (null), contradicting the claim that
every null-area room yields a non-null contribution. -/
theorem claim_C2_counterexample :
    (aggTotals [("101", Estimate.mk 40 10 2)]
        (MergedTable.mk ["Raum-Nr.", "Fläche"]
          [Row.mk (some "101") [("Fläche", none)]])).total_heating_w = none ∧
    (computedStep2 [("101", Estimate.mk 40 10 2)]
        (MergedTable.mk ["Raum-Nr.", "Fläche"]
          [Row.mk (some "101") [("Fläche", none)]])
        (3/10)).details.annualConsumptionKwh = none ∧
    (computedStep2 [("101", Estimate.mk 40 10 2)]
        (MergedTable.mk ["Raum-Nr.", "Fläche"]
          [Row.mk (some "101") [("Fläche", none)]])
        (3/10)).details.heatingPowerKw = none := by
  have hH : (aggTotals [("101", Estimate.mk 40 10 2)]
      (MergedTable.mk ["Raum-Nr.", "Fläche"]
        [Row.mk (some "101") [("Fläche", none)]])).total_heating_w = none := by
    norm_num [aggTotals, aggStep, List.foldl, List.find?, Row.get, List.lookup,
      findAreaCol, areaColCandidates, updateStats, roomTypeName, typesMap]
  have hC : (aggTotals [("101", Estimate.mk 40 10 2)]
      (MergedTable.mk ["Raum-Nr.", "Fläche"]
        [Row.mk (some "101") [("Fläche", none)]])).total_cooling_w = none := by
    norm_num [aggTotals, aggStep, List.foldl, List.find?, Row.get, List.lookup,
      findAreaCol, areaColCandidates, updateStats, roomTypeName, typesMap]
  refine ⟨hH, ?_, ?_⟩
  · show pRound 0 (annual_total_kwh (aggTotals [("101", Estimate.mk 40 10 2)]
      (MergedTable.mk ["Raum-Nr.", "Fläche"]
        [Row.mk (some "101") [("Fläche", none)]]))) = none
    simp [annual_total_kwh, annual_heating_kwh, annual_cooling_kwh, total_heating_kw, hH, hC]
  · show pRound 1 (total_heating_kw (aggTotals [("101", Estimate.mk 40 10 2)]
      (MergedTable.mk ["Raum-Nr.", "Fläche"]
        [Row.mk (some "101") [("Fläche", none)]]))) = none
    simp [total_heating_kw, hH]

/-- Invariant behind the amended claim C2: when the merged table has no
recognised area column, every room processed by the aggregation loop gets
the default area 20.0, so the running totals never become NaN. -/
theorem foldl_aggStep_isSome (df : MergedTable) (hno : findAreaCol df.cols = none)
    (es : List (String × Estimate)) :
    ∀ s : AggState,
      s.total_heating_w.isSome = true → s.total_cooling_w.isSome = true →
      s.total_area.isSome = true →
      ((es.foldl (aggStep df) s).total_heating_w.isSome = true ∧
       (es.foldl (aggStep df) s).total_cooling_w.isSome = true ∧
       (es.foldl (aggStep df) s).total_area.isSome = true) := by
  induction es with
  | nil =>
    intro s h1 h2 h3
    exact ⟨h1, h2, h3⟩
  | cons e rest ih =>
    intro s h1 h2 h3
    rw [List.foldl_cons]
    apply ih
    · cases hfind : df.rows.find? (fun r => r.roomNr == some e.1) with
      | none => simpa [aggStep, hfind] using h1
      | some row =>
        obtain ⟨a, ha⟩ := Option.isSome_iff_exists.mp h1
        simp [aggStep, hfind, hno, ha]
    · cases hfind : df.rows.find? (fun r => r.roomNr == some e.1) with
      | none => simpa [aggStep, hfind] using h2
      | some row =>
        obtain ⟨a, ha⟩ := Option.isSome_iff_exists.mp h2
        simp [aggStep, hfind, hno, ha]
    · cases hfind : df.rows.find? (fun r => r.roomNr == some e.1) with
      | none => simpa [aggStep, hfind] using h3
      | some row =>
        obtain ⟨a, ha⟩ := Option.isSome_iff_exists.mp h3
        simp [aggStep, hfind, hno, ha]

/-- Claim C2 (amended): the default nominal area 20.0 is substituted only
when the merged table has no recognised area column at all — in that case
every processed room contributes through the default area and the
aggregate totals stay non-null.  When an area column is present, a room
with a null Area value contributes NaN instead (see the
counterexample). -/
theorem claim_C2_amended_default_area (es : List (String × Estimate))
    (df : MergedTable) (hno : findAreaCol df.cols = none) :
    (aggTotals es df).total_heating_w.isSome = true ∧
    (aggTotals es df).total_cooling_w.isSome = true ∧
    (aggTotals es df).total_area.isSome = true :=
  foldl_aggStep_isSome df hno es ⟨some 0, some 0, some 0, []⟩ rfl rfl rfl

/-- Witness for the amended C2: a table with no area column gives room
101 the default 20 m², a non-null 800 W heating contribution, and
non-null totals. -/
theorem claim_C2_amended_default_area_witness :
    findAreaCol (MergedTable.mk ["Raum-Nr."] [Row.mk (some "101") []]).cols = none ∧
    (aggTotals [("101", Estimate.mk 40 10 2)]
        (MergedTable.mk ["Raum-Nr."] [Row.mk (some "101") []])).total_heating_w =
      some 800 ∧
    (aggTotals [("101", Estimate.mk 40 10 2)]
        (MergedTable.mk ["Raum-Nr."] [Row.mk (some "101") []])).total_heating_w.isSome =
      true ∧
    (aggTotals [("101", Estimate.mk 40 10 2)]
        (MergedTable.mk ["Raum-Nr."] [Row.mk (some "101") []])).total_area.isSome =
      true := by
  have hno : findAreaCol (MergedTable.mk ["Raum-Nr."] [Row.mk (some "101") []]).cols =
      none := by decide
  have hno' : findAreaCol ["Raum-Nr."] = none := by decide
  have h800 : (aggTotals [("101", Estimate.mk 40 10 2)]
      (MergedTable.mk ["Raum-Nr."] [Row.mk (some "101") []])).total_heating_w =
      some 800 := by
    norm_num [aggTotals, aggStep, List.foldl, List.find?, Row.get, List.lookup,
      updateStats, roomTypeName, typesMap, hno']
  have hmain := claim_C2_amended_default_area [("101", Estimate.mk 40 10 2)]
    (MergedTable.mk ["Raum-Nr."] [Row.mk (some "101") []]) hno
  exact ⟨hno, h800, hmain.1, hmain.2.2⟩
